import Mathlib

/-!
Verification of the request-orchestration core of the repository:
the remote TensorRT-LLM truss (`solar-truss/model/model.py`) and the local
Llama-3 ChatQA truss (`llama/llama-3-70b-chatqa/model/model.py`).

Each Python function the claims mention is shallowly embedded as an
executable Lean definition; dictionaries with an optional key are
`Option`-valued fields (with `none` meaning the key is absent), Python
string values are `String`, and Python exceptions are explicit error
constructors in an `Except`.
-/

/-- A role-tagged conversation turn, the shape `{role, content}` used by both
model files for entries of the `messages` list. -/
structure Turn where
  role : String
  content : String
deriving DecidableEq, Repr

namespace Solar

/-- `STOP_TOKEN = "<|im_end|>"` (solar-truss, line 19). -/
def STOP_TOKEN : String := "<|im_end|>"

/-- `APPEND_ASSISTANT_TEMPLATE_TO_PROMPT_STR = "<|im_start|>assistant"`
(solar-truss, line 18). -/
def ASSISTANT_MARKER : String := "<|im_start|>assistant"

/-- The async generator `generate` inside `Model.predict`
(solar-truss, lines 125-130): it iterates over the engine's responses and,
for each one, yields the response itself when it differs from `STOP_TOKEN`
and the empty string otherwise.  It never breaks out of the loop, so it
consumes the whole response sequence. -/
def generateOut : List String → List String
  | [] => []
  | r :: rs => (if r ≠ STOP_TOKEN then r else "") :: generateOut rs

/-- The exceptions `Model.predict` can raise:
`valueError` is the `ValueError("Prompt or messages must be provided")` at
line 109, `keyError` is the `KeyError` of the subscript `model_input['prompt']`
at line 119 when the dict has no `prompt` key, and `typeError` is the
`TypeError` raised by `"".join(generate())` at lines 136/138, since
`generate()` is an async generator and `str.join` only accepts a
(synchronously) iterable argument. -/
inductive PredictErr where
  | valueError
  | keyError
  | typeError
deriving DecidableEq, Repr

/-- The value `Model.predict` would return: a lazy stream of increments
(streaming), a plain concatenated string (non-streaming, openai-compatible
backend) or the `{"text": ...}` wrapper (non-streaming otherwise). -/
inductive Outcome where
  | streamed (incs : List String)
  | plain (s : String)
  | wrapped (s : String)
deriving DecidableEq, Repr

/-- Python truthiness of the local variable
`prompt = model_input.get("prompt", None)`: `not prompt` is true exactly when
the `prompt` key is absent (`None`) or holds the empty string. -/
def promptFalsy (pk : Option String) : Bool :=
  pk.getD "" == ""

/-- Lines 104-119 of `Model.predict` (solar-truss): validation of
`prompt`/`messages`, chat-template rendering for openai-compatible backends,
and the unconditional append of the assistant marker.  `uoa` is
`self.uses_openai_api`, `ct` is the external
`self.tokenizer.apply_chat_template` collaborator, `pk` is the value of the
`prompt` key of the `model_input` dict (`none` = key absent) and `msgs` the
value of the `messages` key (absent = `[]`).

Line 119 subscripts `model_input['prompt']`; when the key was never set
(no inbound `prompt` key and the chat-template branch not taken) this is a
`KeyError`. -/
def predictPrompt (uoa : Bool) (ct : List Turn → String)
    (pk : Option String) (msgs : List Turn) : Except PredictErr String :=
  if promptFalsy pk ∧ msgs = [] then
    .error .valueError
  else
    let pk2 := if uoa ∧ promptFalsy pk then some (ct msgs) else pk
    match pk2 with
    | none => .error .keyError
    | some p => .ok (p ++ ASSISTANT_MARKER)

/-- The inbound request of the remote truss, restricted to the keys that
steer `Model.predict`'s control flow. -/
structure RemoteRequest where
  prompt : Option String
  messages : List Turn
  stream : Bool
deriving Repr

/-- The observable effect of one `Model.predict` call: whether the backend
channel was touched (`self.triton_client.start_grpc_stream()` and
`self.triton_client.infer(...)`, lines 121-123, which execute adjacently) and
the result or exception. -/
structure PredictTrace where
  backendCalled : Bool
  result : Except PredictErr Outcome
deriving Repr

/-- `Model.predict` (solar-truss, lines 93-138) for a fixed engine-response
sequence `responses`.  Lines 94-103 (defaulting `max_tokens` and
`max_new_tokens` to 500, attaching the request id and `eos_token_id`) do not
influence control flow and are modelled separately (`requestId` below).
After successful prompt resolution the backend stream is started and the
inference submitted; the streaming branch returns the lazy `generate()`
sequence, while both non-streaming branches call `"".join(generate())`,
which raises `TypeError` because `generate()` is an async generator. -/
def predict (uoa : Bool) (ct : List Turn → String)
    (req : RemoteRequest) (responses : List String) : PredictTrace :=
  match predictPrompt uoa ct req.prompt req.messages with
  | .error e => ⟨false, .error e⟩
  | .ok _ =>
    if req.stream then
      ⟨true, .ok (.streamed (generateOut responses))⟩
    else
      ⟨true, .error .typeError⟩

/-- Python `str` of a natural number as its big-endian decimal digit list
(`str(0) = "0"`; for positive `n` the digits of `n` without leading zeros).
Each character of the Python string is one digit of this list. -/
def pyStr (n : Nat) : List Nat :=
  if n = 0 then [0] else (Nat.digits 10 n).reverse

/-- `str(os.getpid()) + str(next(self._request_id_counter))`
(solar-truss, lines 100-102): the decimal string of the process id followed
by the decimal string of the counter value.  The counter is
`itertools.count(start=1)`, so the k-th call of `predict` uses `n = k`. -/
def requestId (pid n : Nat) : List Nat :=
  pyStr pid ++ pyStr n

/-- Reading a decimal digit string back as an integer
(most significant digit first). -/
def readDecimal (l : List Nat) : Nat :=
  Nat.ofDigits 10 l.reverse

end Solar

/-- **C3.** The remote streaming client yields one increment per engine
response in arrival order: a response equal to the stop-token sentinel is
replaced by the empty string, every other response is yielded verbatim; no
yielded increment equals the sentinel; and the engine sequence
`["4", " is", " the", " answer", STOP]` yields
`["4", " is", " the", " answer", ""]`. -/
theorem solar_generate_filters_sentinel :
    (∀ rs : List String,
      Solar.generateOut rs =
        rs.map (fun r => if r = Solar.STOP_TOKEN then "" else r)) ∧
    (∀ rs : List String, ∀ s ∈ Solar.generateOut rs, s ≠ Solar.STOP_TOKEN) ∧
    Solar.generateOut ["4", " is", " the", " answer", Solar.STOP_TOKEN] =
      ["4", " is", " the", " answer", ""] := by
  refine ⟨?_, ?_, by decide⟩
  · intro rs
    induction rs with
    | nil => rfl
    | cons r rs ih =>
      simp only [Solar.generateOut, ih, List.map_cons]
      by_cases h : r = Solar.STOP_TOKEN <;> simp [h]
  · intro rs
    induction rs with
    | nil => intro s hs; cases hs
    | cons r rs ih =>
      intro s hs
      rcases List.mem_cons.mp hs with h | h
      · subst h
        by_cases hr : r = Solar.STOP_TOKEN
        · simp [hr, Solar.STOP_TOKEN]
        · simp only [Solar.STOP_TOKEN] at hr
          simp [hr, Solar.STOP_TOKEN]
      · exact ih s h

/-- Witness for C3 at a concrete input: the increment `"4"` yielded for the
engine sequence `["4", STOP]` is not the sentinel. -/
theorem solar_generate_filters_sentinel_witness :
    ("4" : String) ≠ Solar.STOP_TOKEN :=
  solar_generate_filters_sentinel.2.1 ["4", Solar.STOP_TOKEN] "4" (by decide)

/-- **C2, counterexample.** The claim asserts that with the sentinel at
position `i` the caller observes exactly `i + 1` increments *regardless of
any responses the engine delivers after the sentinel*.  With responses
`[STOP, "x"]` the sentinel is at position 0, yet the client yields
`["", "x"]` - two increments, not one: the loop never terminates the stream
at the sentinel. -/
theorem solar_generate_sentinel_not_terminal :
    Solar.generateOut [Solar.STOP_TOKEN, "x"] = ["", "x"] ∧
    (Solar.generateOut [Solar.STOP_TOKEN, "x"]).length ≠ 0 + 1 := by
  decide

/-- **C2, amended.** The client yields exactly one increment per engine
response and never cuts the stream itself; consequently, when the engine's
response sequence *ends* with the sentinel at position `i` (no responses are
delivered after it), the caller observes exactly `i + 1` increments - the
last one empty - and then end-of-stream.  Responses delivered after the
sentinel would be yielded as further increments. -/
theorem solar_generate_ends_after_final_sentinel :
    ∀ pre : List String,
      Solar.generateOut (pre ++ [Solar.STOP_TOKEN]) =
        Solar.generateOut pre ++ [""] ∧
      (Solar.generateOut (pre ++ [Solar.STOP_TOKEN])).length = pre.length + 1 := by
  intro pre
  have key : ∀ l : List String,
      Solar.generateOut (l ++ [Solar.STOP_TOKEN]) = Solar.generateOut l ++ [""] := by
    intro l
    induction l with
    | nil => simp [Solar.generateOut]
    | cons r rs ih => simp [Solar.generateOut, ih]
  have len : ∀ l : List String, (Solar.generateOut l).length = l.length := by
    intro l
    induction l with
    | nil => rfl
    | cons r rs ih => simp [Solar.generateOut, ih]
  refine ⟨key pre, ?_⟩
  rw [len]
  simp

/-- **C5.** When the `prompt` key is absent or empty and the `messages` list is
empty, `Model.predict` raises the `ValueError` ("Prompt or messages must be
provided") before the backend channel is touched (no `start_grpc_stream`, no
`infer`, for every possible engine-response sequence); when a non-empty prompt
or non-empty messages are supplied, this error is never raised. -/
theorem solar_predict_invalid_request :
    ∀ (uoa : Bool) (ct : List Turn → String) (req : Solar.RemoteRequest)
      (responses : List String),
      (Solar.promptFalsy req.prompt = true ∧ req.messages = [] →
        (Solar.predict uoa ct req responses).backendCalled = false ∧
        (Solar.predict uoa ct req responses).result = .error .valueError) ∧
      (Solar.promptFalsy req.prompt = false ∨ req.messages ≠ [] →
        (Solar.predict uoa ct req responses).result ≠ .error .valueError) := by
  intro uoa ct req responses
  constructor
  · rintro ⟨h1, h2⟩
    simp [Solar.predict, Solar.predictPrompt, h1, h2]
  · intro h
    have hcond : ¬ (Solar.promptFalsy req.prompt = true ∧ req.messages = []) := by
      rcases h with h | h
      · intro hc; rw [hc.1] at h; cases h
      · intro hc; exact h hc.2
    unfold Solar.predict Solar.predictPrompt
    rw [if_neg hcond]
    cases hpk2 : (if uoa ∧ Solar.promptFalsy req.prompt = true
        then some (ct req.messages) else req.prompt) with
    | none => simp
    | some p => cases req.stream <;> simp

/-- Witness for C5: the empty request errors without a backend call, and a
request with a prompt does not raise the validation error. -/
theorem solar_predict_invalid_request_witness :
    (Solar.predict true (fun _ => "") ⟨none, [], false⟩ []).backendCalled = false ∧
    (Solar.predict true (fun _ => "") ⟨none, [], false⟩ []).result =
      .error .valueError ∧
    (Solar.predict true (fun _ => "") ⟨some "hi", [], false⟩ []).result ≠
      .error .valueError := by
  have h1 := (solar_predict_invalid_request true (fun _ => "")
    ⟨none, [], false⟩ []).1 (by exact ⟨rfl, rfl⟩)
  have h2 := (solar_predict_invalid_request true (fun _ => "")
    ⟨some "hi", [], false⟩ []).2 (Or.inl (by decide))
  exact ⟨h1.1, h1.2, h2⟩

/-- **C8.** In both defined modes - chat-template (non-empty messages,
openai-compatible backend, no explicit prompt) and raw-prompt (explicit
non-empty prompt) - the prompt handed to the backend ends with the fixed
assistant continuation marker `<|im_start|>assistant`; in chat-template mode
the marker is appended to the chat-template rendering of the messages. -/
theorem solar_prompt_ends_with_marker :
    ∀ (uoa : Bool) (ct : List Turn → String) (pk : Option String)
      (msgs : List Turn),
      ((uoa = true ∧ Solar.promptFalsy pk = true ∧ msgs ≠ []) ∨
        (∃ p, pk = some p ∧ p ≠ "")) →
      ∃ pre, Solar.predictPrompt uoa ct pk msgs =
          .ok (pre ++ Solar.ASSISTANT_MARKER) ∧
        (uoa = true ∧ Solar.promptFalsy pk = true ∧ msgs ≠ [] → pre = ct msgs) := by
  intro uoa ct pk msgs h
  rcases h with ⟨hu, hf, hm⟩ | ⟨p, hpk, hp⟩
  · refine ⟨ct msgs, ?_, fun _ => rfl⟩
    unfold Solar.predictPrompt
    rw [if_neg (fun hc => hm hc.2), if_pos ⟨hu, hf⟩]
  · have hf : Solar.promptFalsy pk = false := by
      rw [hpk]
      unfold Solar.promptFalsy
      simpa [Option.getD] using hp
    refine ⟨p, ?_, ?_⟩
    · unfold Solar.predictPrompt
      rw [if_neg (fun hc => by rw [hf] at hc; cases hc.1)]
      rw [if_neg (fun hc => by rw [hf] at hc; cases hc.2), hpk]
    · rintro ⟨-, hf2, -⟩
      rw [hf] at hf2
      cases hf2

/-- Witness for C8: chat-template mode with a one-message conversation and a
concrete chat-template collaborator produces the rendered template followed
by the marker. -/
theorem solar_prompt_ends_with_marker_witness :
    Solar.predictPrompt true (fun _ => "TMPL") none [⟨"user", "hi"⟩] =
      .ok ("TMPL" ++ Solar.ASSISTANT_MARKER) := by
  obtain ⟨pre, h1, h2⟩ := solar_prompt_ends_with_marker true (fun _ => "TMPL")
    none [⟨"user", "hi"⟩] (Or.inl ⟨rfl, rfl, by decide⟩)
  rw [h2 ⟨rfl, rfl, by decide⟩] at h1
  exact h1

/-- **C10, counterexample.** The claim asserts a `KeyError` also when the
`prompt` key is present but empty.  With `prompt = ""`, non-empty messages
and a non-chat-compatible backend, `model_input['prompt']` exists, so line
119 appends the marker to the empty string and no error is raised. -/
theorem solar_empty_prompt_no_keyerror :
    Solar.predictPrompt false (fun _ => "") (some "") [⟨"user", "q"⟩] =
      .ok Solar.ASSISTANT_MARKER ∧
    Solar.predictPrompt false (fun _ => "") (some "") [⟨"user", "q"⟩] ≠
      .error .keyError := by
  exact ⟨rfl, fun h => Except.noConfusion h⟩

/-- **C10, amended.** With non-empty messages and a backend that is not
chat-compatible, the marker-append step raises `KeyError` exactly when the
inbound request has no `prompt` key at all (the key is never set on this
path); when the request carries an empty-string prompt, the step instead
succeeds and the final prompt is just the assistant marker. -/
theorem solar_missing_prompt_key_keyerror :
    ∀ (ct : List Turn → String) (msgs : List Turn), msgs ≠ [] →
      Solar.predictPrompt false ct none msgs = .error .keyError ∧
      Solar.predictPrompt false ct (some "") msgs = .ok Solar.ASSISTANT_MARKER := by
  intro ct msgs hm
  constructor
  · unfold Solar.predictPrompt
    rw [if_neg (fun hc => hm hc.2)]
    rfl
  · unfold Solar.predictPrompt
    rw [if_neg (fun hc => hm hc.2)]
    rfl

/-- Witness for the amended C10 at a concrete one-message conversation. -/
theorem solar_missing_prompt_key_keyerror_witness :
    Solar.predictPrompt false (fun _ => "T") none [⟨"user", "q"⟩] =
      .error .keyError ∧
    Solar.predictPrompt false (fun _ => "T") (some "") [⟨"user", "q"⟩] =
      .ok Solar.ASSISTANT_MARKER :=
  solar_missing_prompt_key_keyerror (fun _ => "T") [⟨"user", "q"⟩] (by decide)

/-- **C1** (code-bug evaluation).  For a valid request with `stream = false`
the backend is called, but both non-streaming branches then fail with the
`TypeError` of `"".join(generate())` - `generate()` is an async generator,
which `str.join` cannot iterate - instead of draining the stream and
returning the concatenated text.  Evaluated here for a chat-compatible and a
raw backend on the same request and engine responses. -/
theorem solar_nonstreaming_raises_typeerror :
    Solar.predict true (fun _ => "") ⟨some "hi", [], false⟩
      ["a", Solar.STOP_TOKEN] = ⟨true, .error .typeError⟩ ∧
    Solar.predict false (fun _ => "") ⟨some "hi", [], false⟩
      ["a", Solar.STOP_TOKEN] = ⟨true, .error .typeError⟩ := by
  exact ⟨rfl, rfl⟩

/-- Reading the concatenated decimal string `str(pid) + str(n)` back as an
integer gives `n + 10 ^ (number of digits of n) * (integer read of str(pid))`. -/
lemma readDecimal_requestId (pid n : Nat) (hn : n ≠ 0) :
    Solar.readDecimal (Solar.requestId pid n) =
      n + 10 ^ (Nat.digits 10 n).length * Solar.readDecimal (Solar.pyStr pid) := by
  unfold Solar.readDecimal Solar.requestId
  have hp : Solar.pyStr n = (Nat.digits 10 n).reverse := by
    unfold Solar.pyStr
    rw [if_neg hn]
  rw [List.reverse_append, hp, List.reverse_reverse, Nat.ofDigits_append,
    Nat.ofDigits_digits]

/-- The decimal length of a positive number is monotone in the number. -/
lemma digitsLen_mono (i j : Nat) (hi : i ≠ 0) (hij : i ≤ j) :
    (Nat.digits 10 i).length ≤ (Nat.digits 10 j).length := by
  have hj : j ≠ 0 := by omega
  rw [Nat.digits_len 10 i (by norm_num) hi, Nat.digits_len 10 j (by norm_num) hj]
  exact Nat.add_le_add_right (Nat.log_mono_right hij) 1

/-- **C9.** Request ids `str(pid) + str(counter)` for one process: across any
two calls (the counter starts at 1 and increments by 1, so the i-th call uses
counter value i) the assigned ids, read as integers, are strictly increasing,
and in particular the id strings are pairwise distinct - never reused. -/
theorem solar_request_ids_strictly_increasing :
    ∀ pid i j : Nat, 1 ≤ i → i < j →
      Solar.readDecimal (Solar.requestId pid i) <
        Solar.readDecimal (Solar.requestId pid j) ∧
      Solar.requestId pid i ≠ Solar.requestId pid j := by
  intro pid i j hi hij
  have hi0 : i ≠ 0 := by omega
  have hj0 : j ≠ 0 := by omega
  have hlen := digitsLen_mono i j hi0 (le_of_lt hij)
  have hpow : 10 ^ (Nat.digits 10 i).length ≤ 10 ^ (Nat.digits 10 j).length :=
    Nat.pow_le_pow_right (by norm_num) hlen
  have hmul := Nat.mul_le_mul_right (Solar.readDecimal (Solar.pyStr pid)) hpow
  have hlt : Solar.readDecimal (Solar.requestId pid i) <
      Solar.readDecimal (Solar.requestId pid j) := by
    rw [readDecimal_requestId pid i hi0, readDecimal_requestId pid j hj0]
    exact add_lt_add_of_lt_of_le hij hmul
  exact ⟨hlt, fun he => absurd (congrArg Solar.readDecimal he) (Nat.ne_of_lt hlt)⟩

/-- Witness for C9: the first two calls of a process with pid 42. -/
theorem solar_request_ids_strictly_increasing_witness :
    Solar.readDecimal (Solar.requestId 42 1) <
      Solar.readDecimal (Solar.requestId 42 2) ∧
    Solar.requestId 42 1 ≠ Solar.requestId 42 2 :=
  solar_request_ids_strictly_increasing 42 1 2 (by decide) (by decide)

namespace Llama

/-- Process-wide sampling defaults (llama-3-70b-chatqa, lines 13-19).
The float-valued defaults are represented as rationals; the code only ever
stores and copies these values, it performs no arithmetic on them. -/
def MAX_LENGTH : Nat := 512

def TEMPERATURE : ℚ := 1

def TOP_P : ℚ := 0.95

def TOP_K : Nat := 40

def REPETITION_PENALTY : ℚ := 1

def NO_REPEAT_NGRAM_SIZE : Nat := 0

def DO_SAMPLE : Bool := true

/-- `SYSTEM` (llama-3-70b-chatqa, line 22). -/
def SYSTEM_PREAMBLE : String :=
  "System: This is a chat between a user and an artificial intelligence assistant. The assistant gives helpful, detailed, and polite answers to the user's questions based on the context. The assistant should also indicate when the answer cannot be found in the context."

/-- `INSTRUCTION` (llama-3-70b-chatqa, line 23). -/
def INSTRUCTION : String :=
  "Please give a full and complete answer for the question."

/-- The first loop of `get_formatted_input` (lines 27-31): walk the messages
in order and, at the first turn whose role is `user`, replace its content by
`INSTRUCTION + " " + content` and stop (the `break`); later turns are left
untouched.  The Python loop mutates the list in place; the embedding returns
the updated list. -/
def applyInstruction : List Turn → List Turn
  | [] => []
  | t :: ts =>
    if t.role = "user" then
      { t with content := INSTRUCTION ++ " " ++ t.content } :: ts
    else
      t :: applyInstruction ts

/-- One element of the transcript comprehension (lines 36-38):
`"User: " + content` for user turns, `"Assistant: " + content` otherwise. -/
def renderTurn (t : Turn) : String :=
  if t.role = "user" then "User: " ++ t.content else "Assistant: " ++ t.content

/-- Lines 33-43: the `"\n\n"`-joined transcript followed by the trailing
`"\n\nAssistant:"` cue. -/
def conversation (msgs : List Turn) : String :=
  String.intercalate "\n\n" (msgs.map renderTurn) ++ "\n\nAssistant:"

/-- `get_formatted_input(messages, context)` (lines 26-45).  Returns the
formatted prompt together with the (mutated) message list. -/
def get_formatted_input (messages : List Turn) (context : String) :
    String × List Turn :=
  let ms := applyInstruction messages
  (SYSTEM_PREAMBLE ++ "\n\n" ++ context ++ "\n\n" ++ conversation ms, ms)

/-- Whether the character list `p` occurs at the very start of `s`. -/
def listStartsWith : List Char → List Char → Bool
  | [], _ => true
  | _ :: _, [] => false
  | p :: ps, c :: cs => p == c && listStartsWith ps cs

/-- Whether a turn's content starts with the fixed instruction text. -/
def hasInstruction (t : Turn) : Bool :=
  listStartsWith INSTRUCTION.data t.content.data

/-- The tokenizer collaborator of the local truss, as consumed by
`Model.preprocess`: its end-of-sequence id, padding id and
`convert_tokens_to_ids`. -/
structure Tokenizer where
  eos_token_id : Nat
  pad_token_id : Nat
  convert_tokens_to_ids : String → Nat

/-- The optional sampling fields of the inbound request that
`Model.preprocess` consults (absent key = `none`). -/
structure LlamaRequest where
  max_tokens : Option Nat
  temperature : Option ℚ
  top_p : Option ℚ
  top_k : Option Nat
  repetition_penalty : Option ℚ
  no_repeat_ngram_size : Option Nat
  do_sample : Option Bool

/-- The `generate_args` dict built by `Model.preprocess` (lines 65-78). -/
structure GenerateArgs where
  max_length : Nat
  temperature : ℚ
  top_p : ℚ
  top_k : Nat
  repetition_penalty : ℚ
  no_repeat_ngram_size : Nat
  do_sample : Bool
  use_cache : Bool
  eos_token_id : List Nat
  pad_token_id : Nat
deriving DecidableEq, Repr

/-- `Model.preprocess` (lines 60-78), restricted to building `generate_args`:
each sampling field takes the request's value when the key is present and the
module-level default otherwise; `use_cache` is hard-coded `True`; the
termination ids are `[eos_token_id, convert_tokens_to_ids("<|eot_id|>")]`. -/
def buildGenerateArgs (tok : Tokenizer) (req : LlamaRequest) : GenerateArgs :=
  { max_length := req.max_tokens.getD MAX_LENGTH
    temperature := req.temperature.getD TEMPERATURE
    top_p := req.top_p.getD TOP_P
    top_k := req.top_k.getD TOP_K
    repetition_penalty := req.repetition_penalty.getD REPETITION_PENALTY
    no_repeat_ngram_size := req.no_repeat_ngram_size.getD NO_REPEAT_NGRAM_SIZE
    do_sample := req.do_sample.getD DO_SAMPLE
    use_cache := true
    eos_token_id := [tok.eos_token_id, tok.convert_tokens_to_ids "<|eot_id|>"]
    pad_token_id := tok.pad_token_id }

/-- Modelled from the spec: the local backend engine collaborator (spec §6,
"generate(ids, params) -> ids", realised outside the repository by
`transformers`).  `contTok i` is the i-th token the model would generate for
the fixed encoded input under the fixed sampling parameters, and `decode`
is the tokenizer's `decode(ids, skip_special_tokens)`.  The generated ids
returned by the engine are the input ids followed by the generated
continuation, truncated by the token-length budget: `max_new_tokens` bounds
the number of *generated* tokens, while `max_length` bounds the *total*
(prompt + generated) length, `max_new_tokens` taking precedence when both
are supplied (spec §4.2: generation halts "when `max_length`/`max_new_tokens`
is reached"). -/
structure LocalBackend where
  contTok : Nat → Nat
  decode : List Nat → Bool → String

/-- The first `k` tokens of the backend's continuation stream. -/
def genTokens (be : LocalBackend) (k : Nat) : List Nat :=
  (List.range k).map be.contTok

/-- The token sequence that flows through `TextIteratorStreamer` in
`Model.stream` (lines 85-108): the streamer replays the prompt and every
generated token.  `Model.stream` passes `max_new_tokens :=
generation_args["max_length"]` (line 93) alongside the generation config, so
the generated-token budget is the full `max_length` value `M`. -/
def streamTokenSeq (be : LocalBackend) (inputIds : List Nat) (M : Nat) :
    List Nat :=
  inputIds ++ genTokens be M

/-- Concatenation of all increments the streamer yields: the decoding of the
streamed token sequence, *without* stripping special tokens
(`TextIteratorStreamer(self.tokenizer)` uses no `skip_special_tokens`). -/
def streamConcat (be : LocalBackend) (inputIds : List Nat) (M : Nat) : String :=
  be.decode (streamTokenSeq be inputIds M) false

/-- The token sequence `outputs[0]` of the non-streaming path
(`Model.predict`, line 122): `model.generate(input_ids=..., **generation_args)`
receives only `max_length = M`, a bound on the *total* length, so at most
`M - |inputIds|` tokens are generated. -/
def nonStreamTokenSeq (be : LocalBackend) (inputIds : List Nat) (M : Nat) :
    List Nat :=
  inputIds ++ genTokens be (M - inputIds.length)

/-- The non-streaming response text (line 123):
`tokenizer.decode(outputs[0], skip_special_tokens=True)`. -/
def nonStreamOutput (be : LocalBackend) (inputIds : List Nat) (M : Nat) :
    String :=
  be.decode (nonStreamTokenSeq be inputIds M) true

end Llama

/-- A character list occurs at the start of itself followed by anything. -/
lemma listStartsWith_append (p rest : List Char) :
    Llama.listStartsWith p (p ++ rest) = true := by
  induction p with
  | nil => rfl
  | cons c cs ih => simp [Llama.listStartsWith, ih]

/-- The instruction loop rewrites exactly the first user turn: with `pre` the
user-free head of the list and `t` the first user turn, everything but `t`
is returned unchanged. -/
lemma applyInstruction_split (pre post : List Turn) (t : Turn)
    (hpre : ∀ u ∈ pre, u.role ≠ "user") (ht : t.role = "user") :
    Llama.applyInstruction (pre ++ t :: post) =
      pre ++ { t with content := Llama.INSTRUCTION ++ " " ++ t.content } :: post := by
  induction pre with
  | nil => simp [Llama.applyInstruction, ht]
  | cons p ps ih =>
    have hp : p.role ≠ "user" := hpre p (List.mem_cons_self p ps)
    simp only [List.cons_append, Llama.applyInstruction, if_neg hp]
    exact congrArg (fun l => p :: l)
      (ih (fun u hu => hpre u (List.mem_cons_of_mem p hu)))

/-- A turn whose content just received the instruction text starts with it. -/
lemma hasInstruction_modified (t : Turn) :
    Llama.hasInstruction
      { t with content := Llama.INSTRUCTION ++ " " ++ t.content } = true := by
  show Llama.listStartsWith Llama.INSTRUCTION.data
    (Llama.INSTRUCTION ++ " " ++ t.content).data = true
  rw [String.data_append, String.data_append, List.append_assoc]
  exact listStartsWith_append _ _

/-- **C6.** For a message list whose first user turn is `t` (turns before it,
`pre`, have other roles), one call of the formatter's instruction loop
prepends `INSTRUCTION` and a space to the content of exactly `t` and touches
no other turn; consequently, if no incoming turn already started with the
instruction text, exactly one turn of the result does. -/
theorem llama_instruction_first_user_turn :
    ∀ (pre post : List Turn) (t : Turn),
      (∀ u ∈ pre, u.role ≠ "user") → t.role = "user" →
      Llama.applyInstruction (pre ++ t :: post) =
        pre ++ { t with content := Llama.INSTRUCTION ++ " " ++ t.content } :: post ∧
      ((∀ u ∈ pre ++ t :: post, Llama.hasInstruction u = false) →
        (Llama.applyInstruction (pre ++ t :: post)).countP
          Llama.hasInstruction = 1) := by
  intro pre post t hpre ht
  have heq := applyInstruction_split pre post t hpre ht
  refine ⟨heq, fun hnone => ?_⟩
  rw [heq, List.countP_append, List.countP_cons]
  have h1 : pre.countP Llama.hasInstruction = 0 :=
    List.countP_eq_zero.mpr fun u hu => by
      simp [hnone u (List.mem_append_left _ hu)]
  have h2 : post.countP Llama.hasInstruction = 0 :=
    List.countP_eq_zero.mpr fun u hu => by
      simp [hnone u (List.mem_append_right _ (List.mem_cons_of_mem t hu))]
  rw [h1, h2, hasInstruction_modified]
  simp

/-- Witness for C6: a two-turn conversation whose second turn is the first
user turn. -/
theorem llama_instruction_first_user_turn_witness :
    Llama.applyInstruction [⟨"assistant", "hello"⟩, ⟨"user", "Q"⟩] =
      [⟨"assistant", "hello"⟩, ⟨"user", Llama.INSTRUCTION ++ " " ++ "Q"⟩] ∧
    (Llama.applyInstruction [⟨"assistant", "hello"⟩, ⟨"user", "Q"⟩]).countP
      Llama.hasInstruction = 1 := by
  have h := llama_instruction_first_user_turn [⟨"assistant", "hello"⟩] []
    ⟨"user", "Q"⟩ (by decide) rfl
  exact ⟨h.1, h.2 (by decide)⟩

/-- **C7.** Every sampling field of the built generation parameters equals
the request's explicit override when the key is present and the documented
process default (512, 1.0, 0.95, 40, 1.0, 0, true) when absent; `use_cache`
is always true and the termination ids are the pair of the tokenizer's
end-of-sequence id and the `<|eot_id|>` id. -/
theorem llama_generate_args_build :
    ∀ (tok : Llama.Tokenizer) (req : Llama.LlamaRequest),
      (∀ v, req.max_tokens = some v →
        (Llama.buildGenerateArgs tok req).max_length = v) ∧
      (req.max_tokens = none →
        (Llama.buildGenerateArgs tok req).max_length = 512) ∧
      (∀ v, req.temperature = some v →
        (Llama.buildGenerateArgs tok req).temperature = v) ∧
      (req.temperature = none →
        (Llama.buildGenerateArgs tok req).temperature = 1) ∧
      (∀ v, req.top_p = some v →
        (Llama.buildGenerateArgs tok req).top_p = v) ∧
      (req.top_p = none →
        (Llama.buildGenerateArgs tok req).top_p = 0.95) ∧
      (∀ v, req.top_k = some v →
        (Llama.buildGenerateArgs tok req).top_k = v) ∧
      (req.top_k = none →
        (Llama.buildGenerateArgs tok req).top_k = 40) ∧
      (∀ v, req.repetition_penalty = some v →
        (Llama.buildGenerateArgs tok req).repetition_penalty = v) ∧
      (req.repetition_penalty = none →
        (Llama.buildGenerateArgs tok req).repetition_penalty = 1) ∧
      (∀ v, req.no_repeat_ngram_size = some v →
        (Llama.buildGenerateArgs tok req).no_repeat_ngram_size = v) ∧
      (req.no_repeat_ngram_size = none →
        (Llama.buildGenerateArgs tok req).no_repeat_ngram_size = 0) ∧
      (∀ v, req.do_sample = some v →
        (Llama.buildGenerateArgs tok req).do_sample = v) ∧
      (req.do_sample = none →
        (Llama.buildGenerateArgs tok req).do_sample = true) ∧
      (Llama.buildGenerateArgs tok req).use_cache = true ∧
      (Llama.buildGenerateArgs tok req).eos_token_id =
        [tok.eos_token_id, tok.convert_tokens_to_ids "<|eot_id|>"] := by
  intro tok req
  refine ⟨fun v h => ?_, fun h => ?_, fun v h => ?_, fun h => ?_, fun v h => ?_,
    fun h => ?_, fun v h => ?_, fun h => ?_, fun v h => ?_, fun h => ?_,
    fun v h => ?_, fun h => ?_, fun v h => ?_, fun h => ?_, rfl, rfl⟩ <;>
  simp [Llama.buildGenerateArgs, h, Llama.MAX_LENGTH, Llama.TEMPERATURE,
    Llama.TOP_P, Llama.TOP_K, Llama.REPETITION_PENALTY,
    Llama.NO_REPEAT_NGRAM_SIZE, Llama.DO_SAMPLE]

/-- Concrete tokenizer used by the C7 witness. -/
def tokW : Llama.Tokenizer :=
  ⟨2, 0, fun s => if s = "<|eot_id|>" then 128009 else 7⟩

/-- Concrete request for the C7 witness: overrides for `max_tokens`, `top_p`,
`repetition_penalty` and `do_sample`; the other keys absent. -/
def reqW : Llama.LlamaRequest :=
  ⟨some 100, none, some 0.5, none, some 2, none, some false⟩

/-- Witness for C7: present keys surface unchanged, absent keys get the
documented defaults, `use_cache` is true and the termination ids are
`[eos, eot]`. -/
theorem llama_generate_args_build_witness :
    (Llama.buildGenerateArgs tokW reqW).max_length = 100 ∧
    (Llama.buildGenerateArgs tokW reqW).temperature = 1 ∧
    (Llama.buildGenerateArgs tokW reqW).top_p = 0.5 ∧
    (Llama.buildGenerateArgs tokW reqW).top_k = 40 ∧
    (Llama.buildGenerateArgs tokW reqW).repetition_penalty = 2 ∧
    (Llama.buildGenerateArgs tokW reqW).no_repeat_ngram_size = 0 ∧
    (Llama.buildGenerateArgs tokW reqW).do_sample = false ∧
    (Llama.buildGenerateArgs tokW reqW).use_cache = true ∧
    (Llama.buildGenerateArgs tokW reqW).eos_token_id = [2, 128009] := by
  obtain ⟨h1, h2, h3, h4, h5, h6, h7, h8, h9, h10, h11, h12, h13, h14, h15, h16⟩ :=
    llama_generate_args_build tokW reqW
  refine ⟨h1 100 rfl, h4 rfl, h5 0.5 rfl, h8 rfl, h9 2 rfl, h12 rfl,
    h13 false rfl, h15, ?_⟩
  rw [h16]
  rfl

/-- Concrete backend for the C4 theorems: token `i` of the continuation is
`i + 100`, and decoding renders each token id as the character with that
code, identically for both values of the skip-special-tokens flag (so this
backend has no special tokens and "modulo stripping" is the identity). -/
def be0 : Llama.LocalBackend :=
  ⟨fun i => i + 100, fun ids _ => String.mk (ids.map Char.ofNat)⟩

/-- **C4, counterexample.** The two local paths do not run under the same
effective token budget: `Model.stream` passes `max_new_tokens = max_length`
(a generated-token budget) while the non-streaming path passes `max_length`
(a total-length budget).  With a 2-token prompt and `max_length = 3` the
streamed concatenation decodes 3 generated tokens but the non-streaming
output only 1, and since this backend's decoding is independent of the
stripping flag, the two texts differ outright - not merely by
special-token stripping. -/
theorem llama_stream_budget_mismatch :
    Llama.streamConcat be0 [1, 2] 3 ≠ Llama.nonStreamOutput be0 [1, 2] 3 ∧
    (Llama.streamTokenSeq be0 [1, 2] 3).length ≠
      (Llama.nonStreamTokenSeq be0 [1, 2] 3).length ∧
    (∀ ids b1 b2, be0.decode ids b1 = be0.decode ids b2) := by
  refine ⟨by decide, by decide, fun ids b1 b2 => rfl⟩

/-- **C4, amended.** The streaming path generates under a `max_new_tokens`
budget equal to the request's `max_length` value `M` while the non-streaming
path generates under `M` as a *total* budget (so `M - |prompt|` new tokens);
the two paths therefore agree - the streamed concatenation and the
non-streaming text being the unstripped and special-token-stripped decodings
of one and the same token sequence - exactly when the budgets coincide, in
particular for an empty encoded prompt. -/
theorem llama_stream_nonstream_budgets :
    ∀ (be : Llama.LocalBackend) (ids : List Nat) (M : Nat),
      (Llama.streamTokenSeq be ids M).length = ids.length + M ∧
      (Llama.nonStreamTokenSeq be ids M).length =
        ids.length + (M - ids.length) ∧
      (ids = [] →
        Llama.streamTokenSeq be ids M = Llama.nonStreamTokenSeq be ids M ∧
        Llama.nonStreamOutput be ids M =
          be.decode (Llama.streamTokenSeq be ids M) true) := by
  intro be ids M
  refine ⟨?_, ?_, ?_⟩
  · simp [Llama.streamTokenSeq, Llama.genTokens]
  · simp [Llama.nonStreamTokenSeq, Llama.genTokens]
  · rintro rfl
    constructor
    · simp [Llama.streamTokenSeq, Llama.nonStreamTokenSeq]
    · simp [Llama.nonStreamOutput, Llama.nonStreamTokenSeq, Llama.streamTokenSeq]

/-- Witness for the amended C4 with an empty prompt and budget 2. -/
theorem llama_stream_nonstream_budgets_witness :
    (Llama.streamTokenSeq be0 [] 2).length = 0 + 2 ∧
    (Llama.nonStreamTokenSeq be0 [] 2).length = 0 + (2 - 0) ∧
    Llama.streamTokenSeq be0 [] 2 = Llama.nonStreamTokenSeq be0 [] 2 ∧
    Llama.nonStreamOutput be0 [] 2 =
      be0.decode (Llama.streamTokenSeq be0 [] 2) true := by
  have h := llama_stream_nonstream_budgets be0 [] 2
  exact ⟨h.1, h.2.1, (h.2.2 rfl).1, (h.2.2 rfl).2⟩
